import Mathlib

/-!
Verification model of the QCPINN-PAAN `PDE-complexity` pipeline
(`loop.py` and `scorer.py`).

Modelling conventions:
* Python floats are modelled as rationals (`ℚ`); the pipeline only adds,
  subtracts, multiplies and divides values parsed from decimal text, and all
  claims are about exact arithmetic identities on those operations.  The
  non-finite literals accepted by Python (`inf`, `nan`) have no rational
  counterpart and are treated as unparsable by the model; no claim exercises
  them, and `math.isnan` is consequently never true in the model.
* A CSV row produced by `csv.DictReader` is an ordered mapping from column
  name to text; it is modelled as an association list `List (String × String)`
  with first-match lookup (`rget`).  Rows mutated by the pipeline acquire
  numeric values, modelled by `Val` and `VRecord`.
* Python `str.strip()` is modelled over the ASCII whitespace characters
  (space, tab, newline, carriage return, vertical tab, form feed).
* `float(text)` is modelled by `pyFloat?` over finite decimal literals with
  optional sign, decimal point and exponent; digit-group underscores and
  non-ASCII digits are outside the model.
-/

/-- ASCII whitespace as stripped by Python `str.strip()`. -/
def isPyWS (c : Char) : Bool :=
  c == ' ' || c == '\t' || c == '\n' || c == '\r' || c == '\x0b' || c == '\x0c'

/-- Python `str.strip()` with no argument: drop leading and trailing whitespace. -/
def pyStrip (s : String) : String :=
  ⟨(((s.data.dropWhile isPyWS).reverse.dropWhile isPyWS).reverse)⟩

/-- Digit characters interpreted as a base-10 natural number. -/
def digitsToNat (cs : List Char) : ℕ :=
  cs.foldl (fun a c => 10 * a + (c.toNat - '0'.toNat)) 0

/-- A non-empty, all-ASCII-digit character list. -/
def allDigits (cs : List Char) : Bool :=
  !cs.isEmpty && cs.all Char.isDigit

/-- Split a character list at the first occurrence of `c`; `none` if absent. -/
def splitAtChar (c : Char) : List Char → Option (List Char × List Char)
  | [] => none
  | x :: xs =>
    if x = c then some ([], xs)
    else (splitAtChar c xs).map (fun p => (x :: p.1, p.2))

/-- Split at the first exponent marker `e` or `E`; `none` if absent. -/
def splitAtExp : List Char → Option (List Char × List Char)
  | [] => none
  | x :: xs =>
    if x = 'e' ∨ x = 'E' then some ([], xs)
    else (splitAtExp xs).map (fun p => (x :: p.1, p.2))

/-- Consume an optional leading sign; returns (isNegative, rest). -/
def parseSign : List Char → Bool × List Char
  | '+' :: cs => (false, cs)
  | '-' :: cs => (true, cs)
  | cs => (false, cs)

/-- Mantissa of a Python float literal: digits with an optional decimal
point, at least one digit overall (`"1."`, `".5"`, `"1.5"`, `"12"`). -/
def mantissa? (cs : List Char) : Option ℚ :=
  match splitAtChar '.' cs with
  | none => if allDigits cs then some (digitsToNat cs : ℚ) else none
  | some (ip, fp) =>
    if (ip.all Char.isDigit && fp.all Char.isDigit && !(ip.isEmpty && fp.isEmpty)) then
      some ((digitsToNat (ip ++ fp) : ℚ) / 10 ^ fp.length)
    else none

/-- Exponent part after `e`/`E`: optional sign then non-empty digits. -/
def exponent? (cs : List Char) : Option ℤ :=
  let (neg, cs1) := parseSign cs
  if allDigits cs1 then
    some (if neg then -(digitsToNat cs1 : ℤ) else (digitsToNat cs1 : ℤ))
  else none

/-- Unsigned body of a Python float literal, mantissa with optional exponent. -/
def pyFloatCore? (cs : List Char) : Option ℚ :=
  match splitAtExp cs with
  | none => mantissa? cs
  | some (m, e) =>
    match mantissa? m, exponent? e with
    | some q, some ex => some (q * (10 : ℚ) ^ ex)
    | _, _ => none

/-- Model of Python `float(s)` on text: strip whitespace, optional sign,
finite decimal literal.  Returns `none` where Python raises `ValueError`
(and on the non-finite literals, which ℚ cannot represent). -/
def pyFloat? (s : String) : Option ℚ :=
  let cs := ((s.data.dropWhile isPyWS).reverse.dropWhile isPyWS).reverse
  match cs with
  | [] => none
  | _ =>
    let (neg, cs1) := parseSign cs
    (pyFloatCore? cs1).map (fun q => if neg then -q else q)

/-- A loaded CSV row: ordered column-name/text pairs (`csv.DictReader` dict). -/
abbrev StrRecord := List (String × String)

/-- Python `row.get(k)`: value of the first matching column, `None` if absent. -/
def rget (r : StrRecord) (k : String) : Option String :=
  (r.find? (fun p => p.1 == k)).map (fun p => p.2)

namespace Loop

/-- The scoring columns of `loop.py` (`SCORING_COLUMNS`). -/
def SCORING_COLUMNS : List String :=
  ["Dimensionality", "Nonlinearity", "Boundary", "Time", "Coupling"]

/-- `loop.py` `parse_float(val, default)`: `default` when the value is
missing (`None`) or empty text, the parsed float when parsing succeeds,
`default` when parsing fails. -/
def parse_float (val : Option String) (default : Option ℚ) : Option ℚ :=
  match val with
  | none => default
  | some s =>
    if s = "" then default
    else
      match pyFloat? s with
      | none => default
      | some q => some q

/-- `loop.py` `compute_total_score(row)`: fold the scoring columns, adding
`parse_float(row.get(col), 0.0)` for each.  The Python call site passes the
float default `0.0`; the model passes `some 0` and unwraps, which is exact
because that default is never `None`. -/
def compute_total_score (row : StrRecord) : ℚ :=
  SCORING_COLUMNS.foldl
    (fun total col => total + (parse_float (rget row col) (some 0)).getD 0) 0

end Loop

namespace Scorer

/-- The scoring columns of `scorer.py` (`COLUMNS_FOR_SCORING`). -/
def COLUMNS_FOR_SCORING : List String :=
  ["Dimensionality", "Nonlinearity", "Boundary", "Time", "Coupling"]

/-- A value reaching the `parse_float` of `scorer.py`: either row text or the
integer default `0` supplied by `row.get(col, 0)`. -/
inductive PyVal where
  | str (s : String)
  | intV (n : ℤ)
deriving DecidableEq

/-- `scorer.py` `parse_float(value)`: `float(value)`, or `0.0` on failure.
`float` of an integer always succeeds; `float` of text follows `pyFloat?`. -/
def parse_float (v : PyVal) : ℚ :=
  match v with
  | .intV n => (n : ℚ)
  | .str s => (pyFloat? s).getD 0

/-- `scorer.py` `compute_total_score(row)`: fold the scoring columns, adding
`parse_float(row.get(col, 0))` for each. -/
def compute_total_score (row : StrRecord) : ℚ :=
  COLUMNS_FOR_SCORING.foldl
    (fun total col =>
      total + parse_float
        (match rget row col with
         | none => .intV 0
         | some s => .str s)) 0

end Scorer

/-- A value held by a row after the pipeline mutates it: original text, or a
number stored by `row["Total_Score"] = ...` / `row["L3_Error"] = ...`. -/
inductive Val where
  | str (s : String)
  | num (q : ℚ)
deriving DecidableEq

/-- A (possibly mutated) row as written by the pipeline. -/
abbrev VRecord := List (String × Val)

/-- Python `row.get(k)` on a mutated row. -/
def vget (r : VRecord) (k : String) : Option Val :=
  (r.find? (fun p => p.1 == k)).map (fun p => p.2)

/-- Python `row[k] = v` on a dict: replace the value in place if the key
exists (keeping its position), otherwise append the key at the end. -/
def vset : VRecord → String → Val → VRecord
  | [], k, v => [(k, v)]
  | (k1, v1) :: rest, k, v =>
    if k1 = k then (k, v) :: rest else (k1, v1) :: vset rest k v

/-- `loop.py` `parse_float` applied at the regression stage, where a row
value may already be a stored number: `float` of a number is itself (and a
number is never equal to the empty string). -/
def parse_floatV (val : Option Val) (default : Option ℚ) : Option ℚ :=
  match val with
  | none => default
  | some (.num q) => some q
  | some (.str s) =>
    if s = "" then default
    else
      match pyFloat? s with
      | none => default
      | some q => some q

/-- The stripped `TrainerModule` field:
`(row.get("TrainerModule") or "").strip()` in `run_trainer_for_row`. -/
def moduleOf (r : StrRecord) : String :=
  pyStrip ((rget r "TrainerModule").getD "")

/-- Observable behaviour of one `run_trainer_for_row` call: either a logged
skip with no subprocess, or a synchronous invocation of the named module. -/
inductive TrainerAct where
  | skip
  | invoke (module : String)
deriving DecidableEq

/-- `loop.py` `run_trainer_for_row(row, repo_root)`: skip (print only) when
the stripped `TrainerModule` is empty, otherwise run
`[sys.executable, "-m", module]` as a blocking subprocess. -/
def run_trainer_for_row (r : StrRecord) : TrainerAct :=
  if moduleOf r = "" then .skip else .invoke (moduleOf r)

/-- `loop.py` `get_error_for_row(row)`: the `L3_Error` field parsed as a
float, `None` when missing, empty, or unparsable. -/
def get_error_for_row (r : StrRecord) : Option ℚ :=
  Loop.parse_float (rget r "L3_Error") none

/-- `loop.py` `linear_regression(xs, ys)`: least squares `y = a*x + b`; the
undefined pair (`(None, None)`, modelled `none`) when `xs` is empty or the
denominator `Σ(x-mean_x)²` is zero. -/
def linear_regression (xs ys : List ℚ) : Option (ℚ × ℚ) :=
  let n := xs.length
  if n = 0 then none
  else
    let mean_x := xs.sum / n
    let mean_y := ys.sum / n
    let num := ((xs.zip ys).map (fun p => (p.1 - mean_x) * (p.2 - mean_y))).sum
    let den := (xs.map (fun x => (x - mean_x) ^ 2)).sum
    if den = 0 then none
    else
      let a := num / den
      some (a, mean_y - a * mean_x)

/-- The per-row mutation performed by the loop in `main`: store the computed
`Total_Score` and, when `get_error_for_row` yields a value, store it back
into `L3_Error`.  (The trainer call between the two mutations does not
change the row.) -/
def processRow (r : StrRecord) : VRecord :=
  let asV : VRecord := r.map (fun p => (p.1, Val.str p.2))
  let r1 := vset asV "Total_Score" (.num (Loop.compute_total_score r))
  match get_error_for_row r with
  | some e => vset r1 "L3_Error" (.num e)
  | none => r1

/-- The (score, error) pairs collected by `main` for the regression: rows
whose `Total_Score` and `L3_Error` both parse.  (`math.isnan` never holds in
the rational model, where `nan` does not parse.) -/
def collectPairs (outRows : List VRecord) : List (ℚ × ℚ) :=
  outRows.filterMap (fun r =>
    match parse_floatV (vget r "Total_Score") none,
          parse_floatV (vget r "L3_Error") none with
    | some s, some e => some (s, e)
    | _, _ => none)

/-- The environment `main` runs against: whether `PDE.csv` exists, the rows
`csv.DictReader` yields from it, and the exit status the operating system
reports for a trainer invocation of a given module. -/
structure Env where
  inputExists : Bool
  rows : List StrRecord
  exitCode : String → Int

/-- Terminal outcome of one `main()` run.  `missingInput` is `sys.exit(1)`;
`emptyInput` is `sys.exit(0)`; `trainerFailed` is the propagated
`CalledProcessError` from `subprocess.run(check=True)` (no output file is
written); `completed` carries the `results.csv` header and rows and the
`regression.txt` content (`none` when no artifact is written). -/
inductive MainResult where
  | missingInput
  | emptyInput
  | trainerFailed (row : StrRecord)
  | completed (header : List String) (rows : List VRecord)
      (reg : Option (ℚ × ℚ × ℕ))
deriving DecidableEq

/-- Whether a run reached the Writer stage and produced `results.csv`. -/
def MainResult.isCompleted : MainResult → Bool
  | .completed _ _ _ => true
  | _ => false

/-- The per-row loop of `main`: score and mutate each row in order; abort with
the offending row as soon as an invoked trainer exits non-zero. -/
def runRows (ec : String → Int) : List StrRecord → Except StrRecord (List VRecord)
  | [] => .ok []
  | r :: rs =>
    if moduleOf r ≠ "" ∧ ec (moduleOf r) ≠ 0 then .error r
    else
      match runRows ec rs with
      | .error bad => .error bad
      | .ok rest => .ok (processRow r :: rest)

/-- `loop.py` `main()`: missing-input check, empty-input check, the per-row
loop, the `results.csv` header and rows, and the regression artifact. -/
def mainModel (env : Env) : MainResult :=
  if env.inputExists = false then .missingInput
  else if env.rows = [] then .emptyInput
  else
    match runRows env.exitCode env.rows with
    | .error bad => .trainerFailed bad
    | .ok outRows =>
      let fns0 := (outRows.headD []).map (fun p => p.1)
      let fns := if "Total_Score" ∈ fns0 then fns0 else fns0 ++ ["Total_Score"]
      let pairs := collectPairs outRows
      let xs := pairs.map (fun p => p.1)
      let ys := pairs.map (fun p => p.2)
      let reg := (linear_regression xs ys).map (fun p => (p.1, p.2, xs.length))
      .completed fns outRows reg

/-- The contribution of one column to the total score as the specification
words it: a missing key, empty text, or text that fails numeric parsing
contributes exactly 0, otherwise the parsed value. -/
def claimedColumnValue (row : StrRecord) (col : String) : ℚ :=
  match rget row col with
  | none => 0
  | some s => if s = "" then 0 else (pyFloat? s).getD 0

/-! ### Helper lemmas -/

theorem parse_float_getD_eq_claimed (row : StrRecord) (col : String) :
    (Loop.parse_float (rget row col) (some 0)).getD 0 = claimedColumnValue row col := by
  unfold Loop.parse_float claimedColumnValue
  cases rget row col with
  | none => rfl
  | some s =>
    by_cases hs : s = ""
    · simp [hs]
    · simp only [hs, if_false]
      cases pyFloat? s <;> simp

theorem parse_float_getD_eq_scorer (row : StrRecord) (col : String) :
    (Loop.parse_float (rget row col) (some 0)).getD 0
      = Scorer.parse_float
          (match rget row col with
           | none => .intV 0
           | some s => .str s) := by
  unfold Loop.parse_float Scorer.parse_float
  cases rget row col with
  | none => simp
  | some s =>
    by_cases hs : s = ""
    · subst hs
      have h0 : pyFloat? "" = none := by decide
      simp [h0]
    · simp only [hs, if_false]
      cases pyFloat? s <;> simp

/-! ### Claim theorems -/

/-- C1: for every record, the computed `Total_Score` equals the sum over the
five scoring columns of the value of that column parsed as a number, where a
missing key, empty text, or text that fails numeric parsing contributes
exactly 0; in particular a row with Dimensionality=2, Nonlinearity=1,
Boundary="", Time=0, Coupling=abc yields Total_Score = 3. -/
theorem c1_total_score_is_sum :
    (∀ row : StrRecord,
      Loop.compute_total_score row
        = (Loop.SCORING_COLUMNS.map (claimedColumnValue row)).sum) ∧
    Loop.compute_total_score
      [("Dimensionality", "2"), ("Nonlinearity", "1"), ("Boundary", ""),
       ("Time", "0"), ("Coupling", "abc")] = 3 := by
  constructor
  · intro row
    simp only [Loop.compute_total_score, Loop.SCORING_COLUMNS, List.foldl,
      List.map, List.sum_cons, List.sum_nil, parse_float_getD_eq_claimed]
    ring
  · simp +decide [Loop.compute_total_score, Loop.SCORING_COLUMNS,
      Loop.parse_float, rget, pyFloat?, pyFloatCore?, mantissa?, splitAtExp,
      splitAtChar, parseSign, allDigits, digitsToNat, isPyWS, List.find?,
      List.dropWhile]
    norm_num

/-- C9: the scoring function of `scorer.py` and the scoring function of
`loop.py` are extensionally equal: on every record both return the identical
total score, despite defaulting missing and unparsable values through
different mechanisms. -/
theorem c9_scorers_agree (row : StrRecord) :
    Loop.compute_total_score row = Scorer.compute_total_score row := by
  simp only [Loop.compute_total_score, Scorer.compute_total_score,
    Loop.SCORING_COLUMNS, Scorer.COLUMNS_FOR_SCORING, List.foldl,
    parse_float_getD_eq_scorer]

/-- C2: for every pair of equal-length lists of points with xs non-empty and
the sum of squared deviations of xs from its mean non-zero, the regression
fitter returns exactly a = Σ(x-mean_x)(y-mean_y) / Σ(x-mean_x)² and
b = mean_y - a*mean_x. -/
theorem c2_regression_closed_form (xs ys : List ℚ)
    (_hlen : xs.length = ys.length) (hne : xs ≠ [])
    (hden : (xs.map (fun x => (x - xs.sum / xs.length) ^ 2)).sum ≠ 0) :
    linear_regression xs ys =
      some
        ((((xs.zip ys).map
             (fun p => (p.1 - xs.sum / xs.length) * (p.2 - ys.sum / xs.length))).sum
           / (xs.map (fun x => (x - xs.sum / xs.length) ^ 2)).sum),
         ys.sum / xs.length
           - (((xs.zip ys).map
                (fun p => (p.1 - xs.sum / xs.length) * (p.2 - ys.sum / xs.length))).sum
              / (xs.map (fun x => (x - xs.sum / xs.length) ^ 2)).sum)
             * (xs.sum / xs.length)) := by
  have hn : xs.length ≠ 0 := by simpa using hne
  unfold linear_regression
  simp [hn, hden]

/-- C2 witness: on the points (1,2), (2,4), (3,6) the fitter yields slope 2
and intercept 0 over 3 points. -/
theorem c2_regression_closed_form_witness :
    ([1, 2, 3] : List ℚ) ≠ [] ∧
    ([1, 2, 3] : List ℚ).length = ([2, 4, 6] : List ℚ).length ∧
    (([1, 2, 3] : List ℚ).map
      (fun x => (x - ([1, 2, 3] : List ℚ).sum / ([1, 2, 3] : List ℚ).length) ^ 2)).sum ≠ 0 ∧
    linear_regression [1, 2, 3] [2, 4, 6] = some (2, 0) ∧
    ([1, 2, 3] : List ℚ).length = 3 := by
  refine ⟨by simp, by simp, by norm_num, ?_, by simp⟩
  have h := c2_regression_closed_form [1, 2, 3] [2, 4, 6] (by simp) (by simp) (by norm_num)
  rw [h]
  norm_num

/-- C3: the regression fitter returns the undefined pair exactly when the
point set is empty or the denominator Σ(x-mean_x)² is exactly zero; and in
any completed pipeline run the regression artifact is absent exactly when
the fitter returned the undefined pair (the fitter is a total function, so
this outcome is reported, never raised). -/
theorem c3_regression_insufficient_data :
    (∀ xs ys : List ℚ,
      linear_regression xs ys = none ↔
        xs = [] ∨ (xs.map (fun x => (x - xs.sum / xs.length) ^ 2)).sum = 0) ∧
    (∀ (env : Env) (fn : List String) (out : List VRecord)
        (reg : Option (ℚ × ℚ × ℕ)),
      mainModel env = .completed fn out reg →
        (reg = none ↔
          linear_regression ((collectPairs out).map (fun p => p.1))
            ((collectPairs out).map (fun p => p.2)) = none)) := by
  constructor
  · intro xs ys
    by_cases hxs : xs = []
    · subst hxs
      simp [linear_regression]
    · have hn : xs.length ≠ 0 := by simpa using hxs
      by_cases hden : (xs.map (fun x => (x - xs.sum / xs.length) ^ 2)).sum = 0
      · simp [linear_regression, hn, hden, hxs]
      · simp [linear_regression, hn, hden, hxs]
  · intro env fn out reg h
    unfold mainModel at h
    split at h
    · simp at h
    · split at h
      · simp at h
      · split at h
        · simp at h
        · simp only [MainResult.completed.injEq] at h
          have hout := h.2.1
          have hreg := h.2.2
          subst hout
          rw [← hreg]
          simp [Option.map_eq_none]

/-- A one-row environment with no trainer module and no error column. -/
def c3env : Env where
  inputExists := true
  rows := [[("Name", "x")]]
  exitCode := fun _ => 0

theorem c3_hscore : Loop.compute_total_score [("Name", "x")] = 0 := by
  simp +decide [Loop.compute_total_score, Loop.SCORING_COLUMNS, Loop.parse_float,
    rget, List.find?]

theorem c3_hrun : mainModel c3env = .completed ["Name", "Total_Score"]
    [[("Name", .str "x"), ("Total_Score", .num 0)]] none := by
  simp +decide [c3env, mainModel, runRows, moduleOf, pyStrip, rget, processRow,
    get_error_for_row, Loop.parse_float, vset, collectPairs, parse_floatV, vget,
    linear_regression, c3_hscore, List.find?, List.dropWhile, List.filterMap]

/-- C3 witness: a completed one-row run with zero usable pairs writes no
regression artifact. -/
theorem c3_regression_insufficient_data_witness :
    mainModel c3env = .completed ["Name", "Total_Score"]
      [[("Name", .str "x"), ("Total_Score", .num 0)]] none ∧
    ((none : Option (ℚ × ℚ × ℕ)) = none ↔
      linear_regression
        ((collectPairs [[("Name", .str "x"), ("Total_Score", .num 0)]]).map (fun p => p.1))
        ((collectPairs [[("Name", .str "x"), ("Total_Score", .num 0)]]).map (fun p => p.2))
          = none) :=
  ⟨c3_hrun, c3_regression_insufficient_data.2 c3env _ _ _ c3_hrun⟩

theorem runRows_ok (ec : String → Int) (rows : List StrRecord)
    (hok : ∀ r ∈ rows, moduleOf r = "" ∨ ec (moduleOf r) = 0) :
    runRows ec rows = .ok (rows.map processRow) := by
  induction rows with
  | nil => rfl
  | cons r rs ih =>
    have hr := hok r (by simp)
    have hcond : ¬(moduleOf r ≠ "" ∧ ec (moduleOf r) ≠ 0) := by tauto
    rw [runRows, if_neg hcond, ih (fun x hx => hok x (by simp [hx]))]
    rfl

theorem runRows_append_error (ec : String → Int) (pre rest : List StrRecord)
    (bad : StrRecord)
    (hpre : ∀ r ∈ pre, moduleOf r = "" ∨ ec (moduleOf r) = 0)
    (hbad : moduleOf bad ≠ "") (hexit : ec (moduleOf bad) ≠ 0) :
    runRows ec (pre ++ bad :: rest) = .error bad := by
  induction pre with
  | nil =>
    rw [List.nil_append, runRows, if_pos ⟨hbad, hexit⟩]
  | cons p ps ih =>
    have hp := hpre p (by simp)
    have hcond : ¬(moduleOf p ≠ "" ∧ ec (moduleOf p) ≠ 0) := by tauto
    rw [List.cons_append, runRows, if_neg hcond,
      ih (fun x hx => hpre x (by simp [hx]))]

/-- C4: when the trainer subprocess of some record exits non-zero (all earlier
records having succeeded), the pipeline aborts with the propagated trainer
error: the outcome of the run is `trainerFailed`, and the Writer stage is never
reached, so no output file is produced. -/
theorem c4_trainer_failure_aborts (env : Env) (pre rest : List StrRecord)
    (bad : StrRecord)
    (hex : env.inputExists = true)
    (hrows : env.rows = pre ++ bad :: rest)
    (hpre : ∀ r ∈ pre, moduleOf r = "" ∨ env.exitCode (moduleOf r) = 0)
    (hbad : moduleOf bad ≠ "") (hexit : env.exitCode (moduleOf bad) ≠ 0) :
    mainModel env = .trainerFailed bad ∧ (mainModel env).isCompleted = false := by
  have hne : env.rows ≠ [] := by simp [hrows]
  have hrun : runRows env.exitCode env.rows = .error bad := by
    rw [hrows]
    exact runRows_append_error env.exitCode pre rest bad hpre hbad hexit
  have hmain : mainModel env = .trainerFailed bad := by
    unfold mainModel
    rw [hex]
    simp only [Bool.true_eq_false, if_false, hne, hrun]
  exact ⟨hmain, by rw [hmain]; rfl⟩

/-- A one-row environment whose trainer module always exits with status 1. -/
def c4env : Env where
  inputExists := true
  rows := [[("Name", "b"), ("TrainerModule", "m")]]
  exitCode := fun _ => 1

/-- C4 witness: a concrete failing-trainer run ends in `trainerFailed`. -/
theorem c4_trainer_failure_aborts_witness :
    mainModel c4env = .trainerFailed [("Name", "b"), ("TrainerModule", "m")] ∧
    (mainModel c4env).isCompleted = false :=
  c4_trainer_failure_aborts c4env [] [] [("Name", "b"), ("TrainerModule", "m")]
    rfl rfl (by simp) (by decide) (by decide)

/-- C5: a record whose `TrainerModule` field is absent or empty leads to a
skip: the trainer invoker performs no subprocess invocation. -/
theorem c5_empty_module_skips (r : StrRecord)
    (h : rget r "TrainerModule" = none ∨ rget r "TrainerModule" = some "") :
    run_trainer_for_row r = .skip := by
  have hm : moduleOf r = "" := by
    rcases h with h | h <;>
      simp only [moduleOf, h, Option.getD_some, Option.getD_none] <;> decide
  rw [run_trainer_for_row, if_pos hm]

/-- C5 witness: a record with no `TrainerModule` column is skipped. -/
theorem c5_empty_module_skips_witness :
    (rget [("Name", "b")] "TrainerModule" = none ∨
      rget [("Name", "b")] "TrainerModule" = some "") ∧
    run_trainer_for_row [("Name", "b")] = .skip :=
  ⟨Or.inl (by decide), c5_empty_module_skips [("Name", "b")] (Or.inl (by decide))⟩

/-- C10: a record whose `TrainerModule` field consists only of whitespace is
treated like an empty one: the value is stripped before the emptiness test,
so no subprocess is launched. -/
theorem c10_whitespace_module_skips (r : StrRecord) (s : String)
    (h : rget r "TrainerModule" = some s)
    (hws : ∀ c ∈ s.data, isPyWS c = true) :
    run_trainer_for_row r = .skip := by
  have h1 : s.data.dropWhile isPyWS = [] := List.dropWhile_eq_nil_iff.mpr hws
  have hm : moduleOf r = "" := by
    simp only [moduleOf, h, Option.getD_some, pyStrip, h1]
    rfl
  rw [run_trainer_for_row, if_pos hm]

/-- C10 witness: a `TrainerModule` of blanks and a tab is skipped. -/
theorem c10_whitespace_module_skips_witness :
    rget [("TrainerModule", " \t ")] "TrainerModule" = some " \t " ∧
    (∀ c ∈ (" \t " : String).data, isPyWS c = true) ∧
    run_trainer_for_row [("TrainerModule", " \t ")] = .skip :=
  ⟨by decide, by decide,
    c10_whitespace_module_skips [("TrainerModule", " \t ")] " \t "
      (by decide) (by decide)⟩

/-- An existing-input environment whose single row names a trainer module
that exits with status 2: the run does not complete. -/
def c6bad : Env where
  inputExists := true
  rows := [[("Name", "w"), ("TrainerModule", "mm")]]
  exitCode := fun _ => 2

/-- C6 counterexample: the input file exists and has a data row, yet the
run does not reach completion (the failing trainer aborts it), refuting
"otherwise runs to completion with implicit success" as stated. -/
theorem c6_completion_counterexample :
    c6bad.inputExists = true ∧ c6bad.rows ≠ [] ∧
    (mainModel c6bad).isCompleted = false :=
  ⟨rfl, by simp [c6bad], by decide⟩

/-- C6 (amended): the entry point exits with status 1 when the input file
does not exist, exits with status 0 early when the file has zero data rows,
and otherwise — provided every invoked trainer exits with status zero —
runs to completion. -/
theorem c6_exit_behavior_amended (env : Env) :
    (env.inputExists = false → mainModel env = .missingInput) ∧
    (env.inputExists = true → env.rows = [] → mainModel env = .emptyInput) ∧
    (env.inputExists = true → env.rows ≠ [] →
      (∀ r ∈ env.rows, moduleOf r = "" ∨ env.exitCode (moduleOf r) = 0) →
      ∃ fn out reg, mainModel env = .completed fn out reg) := by
  refine ⟨?_, ?_, ?_⟩
  · intro h
    unfold mainModel
    rw [h]
    rfl
  · intro h1 h2
    unfold mainModel
    rw [h1, h2]
    rfl
  · intro h1 h2 h3
    unfold mainModel
    rw [h1]
    simp only [Bool.true_eq_false, if_false, h2, runRows_ok env.exitCode env.rows h3]
    exact ⟨_, _, _, rfl⟩

/-- A one-row environment with no trainer failure. -/
def c6ok : Env where
  inputExists := true
  rows := [[("Name", "y")]]
  exitCode := fun _ => 0

/-- C6 witness: a concrete run with existing input, one row and no failing
trainer completes. -/
theorem c6_exit_behavior_amended_witness :
    ∃ fn out reg, mainModel c6ok = .completed fn out reg :=
  (c6_exit_behavior_amended c6ok).2.2 rfl (by simp [c6ok]) (by decide)

theorem rget_cons (k1 v1 : String) (ps : StrRecord) (k : String) :
    rget ((k1, v1) :: ps) k = if k1 = k then some v1 else rget ps k := by
  by_cases h : k1 = k
  · simp [rget, List.find?, h]
  · have hb : (k1 == k) = false := by simpa using h
    simp [rget, List.find?, h, hb]

theorem vget_cons (k1 : String) (v1 : Val) (ps : VRecord) (k : String) :
    vget ((k1, v1) :: ps) k = if k1 = k then some v1 else vget ps k := by
  by_cases h : k1 = k
  · simp [vget, List.find?, h]
  · have hb : (k1 == k) = false := by simpa using h
    simp [vget, List.find?, h, hb]

theorem vset_keys (m : VRecord) (k : String) (v : Val) :
    (vset m k v).map (fun p => p.1)
      = if k ∈ m.map (fun p => p.1) then m.map (fun p => p.1)
        else m.map (fun p => p.1) ++ [k] := by
  induction m with
  | nil => simp [vset]
  | cons p ps ih =>
    obtain ⟨k1, v1⟩ := p
    by_cases hk : k1 = k
    · subst hk
      simp [vset]
    · simp only [vset, if_neg hk, List.map_cons, ih]
      by_cases hm : k ∈ ps.map (fun p => p.1)
      · simp [hm, hk, Ne.symm hk]
      · simp [hm, hk, Ne.symm hk]

theorem rget_some_key_mem (r : StrRecord) (k v : String)
    (h : rget r k = some v) : k ∈ r.map (fun p => p.1) := by
  induction r with
  | nil => simp [rget] at h
  | cons p ps ih =>
    obtain ⟨k1, v1⟩ := p
    rw [rget_cons] at h
    by_cases hk : k1 = k
    · simp [hk]
    · rw [if_neg hk] at h
      simp [ih h]

theorem get_error_some_key (r : StrRecord) (e : ℚ)
    (h : get_error_for_row r = some e) :
    "L3_Error" ∈ r.map (fun p => p.1) := by
  unfold get_error_for_row Loop.parse_float at h
  cases hg : rget r "L3_Error" with
  | none => rw [hg] at h; simp at h
  | some s => exact rget_some_key_mem r _ s hg

theorem strmap_keys (r : StrRecord) :
    (r.map (fun p => (p.1, Val.str p.2))).map (fun p => p.1)
      = r.map (fun p => p.1) := by
  induction r with
  | nil => rfl
  | cons p ps ih => simp [ih]

theorem processRow_keys (r : StrRecord) :
    (processRow r).map (fun p => p.1)
      = if "Total_Score" ∈ r.map (fun p => p.1) then r.map (fun p => p.1)
        else r.map (fun p => p.1) ++ ["Total_Score"] := by
  unfold processRow
  cases hge : get_error_for_row r with
  | none =>
    simp only [hge]
    rw [vset_keys, strmap_keys]
  | some e =>
    simp only [hge]
    have hmem := get_error_some_key r e hge
    rw [vset_keys, vset_keys, strmap_keys]
    have hL3 : "L3_Error" ∈
        (if "Total_Score" ∈ r.map (fun p => p.1) then r.map (fun p => p.1)
         else r.map (fun p => p.1) ++ ["Total_Score"]) := by
      by_cases hTS : "Total_Score" ∈ r.map (fun p => p.1) <;> simp [hTS, hmem]
    rw [if_pos hL3]

/-- C7: for every non-empty input whose invoked trainers all succeed, the
run completes with exactly one output record per input row, in input order
(the output rows are the per-row processing applied to the input rows, in
place), and the output header is the column order of the first record with
`Total_Score` appended at the end when it was not already a column. -/
theorem c7_writer_preserves_rows (env : Env)
    (hex : env.inputExists = true) (hne : env.rows ≠ [])
    (hok : ∀ r ∈ env.rows, moduleOf r = "" ∨ env.exitCode (moduleOf r) = 0) :
    ∃ reg, mainModel env
        = .completed
            (if "Total_Score" ∈ (env.rows.headD []).map (fun p => p.1)
             then (env.rows.headD []).map (fun p => p.1)
             else (env.rows.headD []).map (fun p => p.1) ++ ["Total_Score"])
            (env.rows.map processRow) reg ∧
      (env.rows.map processRow).length = env.rows.length := by
  have hmain : ∃ reg, mainModel env
      = .completed
          (if "Total_Score" ∈ (env.rows.headD []).map (fun p => p.1)
           then (env.rows.headD []).map (fun p => p.1)
           else (env.rows.headD []).map (fun p => p.1) ++ ["Total_Score"])
          (env.rows.map processRow) reg := by
    obtain ⟨r0, rs, hcons⟩ := List.exists_cons_of_ne_nil hne
    unfold mainModel
    rw [hex]
    simp only [Bool.true_eq_false, if_false, hne, runRows_ok env.exitCode env.rows hok]
    rw [hcons]
    simp only [List.map_cons, List.headD_cons, processRow_keys]
    by_cases hTS : "Total_Score" ∈ r0.map (fun p => p.1)
    · simp only [hTS, if_true]
      exact ⟨_, rfl⟩
    · simp only [hTS, if_false, List.mem_append, List.mem_singleton, or_true, if_true,
        List.mem_cons, or_false]
      simp
  obtain ⟨reg, hr⟩ := hmain
  exact ⟨reg, hr, by simp⟩

/-- A two-row environment with no trainer modules and no error column. -/
def c7env : Env where
  inputExists := true
  rows := [[("Name", "a"), ("Dimensionality", "2")],
           [("Name", "c"), ("Dimensionality", "xx")]]
  exitCode := fun _ => 0

/-- C7 witness: a concrete two-row run keeps both rows in order and appends
`Total_Score` to the header. -/
theorem c7_writer_preserves_rows_witness :
    ∃ reg, mainModel c7env
        = .completed ["Name", "Dimensionality", "Total_Score"]
            (c7env.rows.map processRow) reg ∧
      (c7env.rows.map processRow).length = c7env.rows.length := by
  have h := c7_writer_preserves_rows c7env rfl (by simp [c7env]) (by decide)
  simpa +decide [c7env] using h

theorem vget_vset_ne (m : VRecord) (kq ks : String) (v : Val) (h : kq ≠ ks) :
    vget (vset m ks v) kq = vget m kq := by
  induction m with
  | nil =>
    have hb : (ks == kq) = false := by simpa using (Ne.symm h)
    simp [vset, vget, List.find?, hb]
  | cons p ps ih =>
    obtain ⟨k1, v1⟩ := p
    by_cases hk : k1 = ks
    · subst hk
      rw [vset, if_pos rfl, vget_cons, vget_cons, if_neg (fun hh => h hh.symm),
        if_neg (fun hh => h hh.symm)]
    · rw [vset, if_neg hk, vget_cons, vget_cons]
      by_cases h1 : k1 = kq
      · simp [h1]
      · simp [h1, ih]

theorem vget_strmap (r : StrRecord) (k : String) :
    vget (r.map (fun p => (p.1, Val.str p.2))) k = (rget r k).map Val.str := by
  induction r with
  | nil => rfl
  | cons p ps ih =>
    obtain ⟨k1, v1⟩ := p
    by_cases h : k1 = k <;> simp [vget_cons, rget_cons, h, ih]

/-- C8: for a record whose `L3_Error` is absent, empty, or unparseable (so
it is not rewritten), every original field other than `Total_Score` appears
unchanged, as text, in the corresponding output row. -/
theorem c8_untouched_fields_roundtrip (r : StrRecord) (k v : String)
    (hL3 : get_error_for_row r = none) (hk : k ≠ "Total_Score")
    (hv : rget r k = some v) :
    vget (processRow r) k = some (.str v) := by
  unfold processRow
  simp only [hL3]
  rw [vget_vset_ne _ _ _ _ hk, vget_strmap, hv]
  rfl

/-- C8 witness: with an unparseable `L3_Error`, the `Name` field survives
processing verbatim. -/
theorem c8_untouched_fields_roundtrip_witness :
    get_error_for_row [("Name", "heat"), ("L3_Error", "abc")] = none ∧
    ("Name" : String) ≠ "Total_Score" ∧
    rget [("Name", "heat"), ("L3_Error", "abc")] "Name" = some "heat" ∧
    vget (processRow [("Name", "heat"), ("L3_Error", "abc")]) "Name"
      = some (.str "heat") :=
  ⟨by decide, by decide, by decide,
    c8_untouched_fields_roundtrip [("Name", "heat"), ("L3_Error", "abc")]
      "Name" "heat" (by decide) (by decide) (by decide)⟩
